import Mathlib

/-!
Shallow embedding of `src/api/webhook.py` (CryptoBobomb Telegram bot):
the subscription store mutations (`/track`, `/untrack`), the watchlist
aggregation handler (`/watchlist`), the sentiment and price provider
adapters (`analyze_sentiment`, `get_crypto_prices`), the webhook routing,
and the (disabled) periodic `cron_job` orchestrator.

External effects (HTTP calls to NewsAPI, Gemini, CoinGecko, Telegram and
the Supabase store) are modelled by explicit oracles passed in as
environment records; the outbound Telegram transport is an oracle that
either completes or raises, since every reply send in the source is an
unguarded `requests.post`.  Python numbers appearing in the CoinGecko JSON are
modelled as: the `usd` price by its rendered decimal string, and the
`usd_24h_change` percentage by an exact integer count of hundredths of a
percent (so `0` renders as `0.00`, `-140` as `-1.40`), which sidesteps
floating-point formatting while keeping the rendering logic exact.
-/

namespace CryptoBobomb

/-- Model of Python `str.lower()`: ASCII case folding character by
character, as performed by `text.lower()` and `parts[1].lower()` in the
webhook handlers. -/
def strToLower (s : String) : String := ⟨s.data.map Char.toLower⟩

/-- Model of Python `str.upper()`, used by `sentiment.upper()` and
`coin.upper()`. -/
def strToUpper (s : String) : String := ⟨s.data.map Char.toUpper⟩

/-- Model of the Python substring test `needle in hay`. -/
def containsSub (needle hay : String) : Bool := decide (needle.data <:+: hay.data)

/-- Model of Python `s.startswith(pre)`. -/
def strStartsWith (s pre : String) : Bool := decide (pre.data <+: s.data)

/-- Model of Python `sep.join(parts)`. -/
def strJoin (sep : String) : List String → String
  | [] => ""
  | [x] => x
  | x :: y :: ys => x ++ sep ++ strJoin sep (y :: ys)

/-- Helper for the model of Python `str.title()`: uppercase a letter that
follows a non-letter, lowercase the rest. -/
def titleCaseAux : Bool → List Char → List Char
  | _, [] => []
  | prevAlpha, c :: cs =>
    (if prevAlpha then c.toLower else c.toUpper) :: titleCaseAux c.isAlpha cs

/-- Model of Python `str.title()`, used by `coin.title()` in the
watchlist line rendering. -/
def titleCase (s : String) : String := ⟨titleCaseAux false s.data⟩

/-- Insert a string into a sorted list, preserving ascending order. -/
def insertSorted (x : String) : List String → List String
  | [] => [x]
  | y :: ys => if x ≤ y then x :: y :: ys else y :: insertSorted x ys

/-- Model of Python `sorted(coins)`: the ascending reordering of the
list (string order is total, so the sorted result is unique and the
choice of algorithm is immaterial). -/
def sortStrings (l : List String) : List String := l.foldr insertSorted []

/-- Result of the NewsAPI HTTP call inside `analyze_sentiment`:
a successful response carrying the (at most five) headline titles, a
non-200 response carrying the error message from the response body, or a
raised exception carrying its text. -/
inductive NewsResult
  | ok (headlines : List String)
  | httpError (msg : String)
  | exn (msg : String)
  deriving DecidableEq, Repr

/-- Result of the Gemini `generate_content` call: the response text, or
a raised exception carrying its text. -/
inductive GeminiResult
  | ok (text : String)
  | exn (msg : String)
  deriving DecidableEq, Repr

/-- Environment of external collaborators consumed by
`analyze_sentiment`: configuration flags and the two provider oracles,
keyed by coin (the prompt is a function of the coin and its headlines,
so keying the Gemini oracle by coin loses no generality). -/
structure SentimentEnv where
  newsApiKey : Bool
  clientOk : Bool
  news : String → NewsResult
  gemini : String → GeminiResult

/-- Embedding of `analyze_sentiment(coin)` from `src/api/webhook.py`
lines 36-71.  Every failure path is caught and reported as a returned
string; the function never raises. -/
def analyze_sentiment (env : SentimentEnv) (coin : String) : String :=
  if !env.newsApiKey then "Error: NEWS_API_KEY not configured."
  else if !env.clientOk then "Error: Gemini Client not initialized (check GEMINI_API_KEY)."
  else
    match env.news coin with
    | .exn e => "Error analyzing sentiment: " ++ e
    | .httpError m => "Error fetching news: " ++ m
    | .ok headlines =>
      if headlines.isEmpty then "No recent news found for " ++ coin ++ "."
      else
        match env.gemini coin with
        | .exn e => "Error analyzing sentiment: " ++ e
        | .ok t => t.trim

/-- One value of the CoinGecko `simple/price` JSON mapping: the two
optional fields the handler reads (`usd`, `usd_24h_change`).  The price
is modelled by its rendered decimal string and the 24h change by an
integer number of hundredths of a percent. -/
structure PriceEntry where
  usd : Option String := none
  usd_24h_change : Option Int := none
  deriving DecidableEq, Repr

/-- Result of the CoinGecko HTTP call inside `get_crypto_prices`. -/
inductive PriceApiResult
  | ok (body : List (String × PriceEntry))
  | httpError (code : Nat)
  | exn (msg : String)
  deriving DecidableEq, Repr

/-- Embedding of `get_crypto_prices(coins)` from `src/api/webhook.py`
lines 73-91: empty input short-circuits to the empty mapping; a non-200
response or a raised exception also yields the empty mapping; the
function never raises. -/
def get_crypto_prices (api : List String → PriceApiResult) (coins : List String) :
    List (String × PriceEntry) :=
  if coins.isEmpty then []
  else
    match api coins with
    | .ok body => body
    | .httpError _ => []
    | .exn _ => []

/-- Three-way sentiment label derived from the provider's response
text; `classify` below mirrors the emoji-selection branch of the
`/watchlist` handler. -/
inductive Verdict
  | bullish
  | bearish
  | neutral
  deriving DecidableEq, Repr

/-- Embedding of the verdict branch of the `/watchlist` handler
(lines 210-216): case-insensitive substring match of the uppercased
sentiment text against `"BULLISH"` first, then `"BEARISH"`, defaulting
to neutral. -/
def classify (sentiment : String) : Verdict :=
  if containsSub "BULLISH" (strToUpper sentiment) then .bullish
  else if containsSub "BEARISH" (strToUpper sentiment) then .bearish
  else .neutral

/-- The emoji the handler renders for each verdict (the source file
stores these glyphs in a double-encoded form; the exact code points are
copied from it). -/
def verdictEmoji (sentiment : String) : String :=
  match classify sentiment with
  | .bullish => "üü¢"
  | .bearish => "üî¥"
  | .neutral => "‚ö™"

/-- Left-pad a two-digit fraction, for the `.2f` rendering. -/
def pad2 (n : Nat) : String := if n < 10 then "0" ++ toString n else toString n

/-- Render a change measured in hundredths of a percent the way Python
`f"{x:.2f}"` renders the corresponding number. -/
def format2f (c : Int) : String :=
  (if c < 0 then "-" else "") ++ toString (c.natAbs / 100) ++ "." ++ pad2 (c.natAbs % 100)

/-- Embedding of the 24h-change rendering (lines 220-227): the missing
key defaults to `0`, which is then rendered as a normal numeric change
with an up arrow. -/
def changeStr (chg : Option Int) : String :=
  let v := chg.getD 0
  " (" ++ (if 0 ≤ v then "‚¨ÜÔ∏è"
           else "‚¨áÔ∏è") ++ " " ++ format2f v ++ "%)"

/-- Model of `prices.get(coin, {})`: first matching key, or the empty
entry. -/
def lookupEntry (prices : List (String × PriceEntry)) (coin : String) : PriceEntry :=
  match prices.lookup coin with
  | some e => e
  | none => {}

/-- The rendered price field: `coin_data.get('usd', 'N/A')`. -/
def priceField (prices : List (String × PriceEntry)) (coin : String) : String :=
  (lookupEntry prices coin).usd.getD "N/A"

/-- The rendered change field for a coin. -/
def changeField (prices : List (String × PriceEntry)) (coin : String) : String :=
  changeStr (lookupEntry prices coin).usd_24h_change

/-- Embedding of one watchlist line (line 229):
`f"{emoji} **{coin.title()}**: ${price}{change_str}\n_{sentiment}_"`. -/
def renderLine (prices : List (String × PriceEntry)) (sentiment : String)
    (coin : String) : String :=
  verdictEmoji sentiment ++ " **" ++ titleCase coin ++ "**: $" ++
    priceField prices coin ++ changeField prices coin ++ "\n_" ++ sentiment ++ "_"

/-- Outcome of the `/watchlist` handler body: the reply text, the list
of price-provider invocations it performed (each recorded with its coin
argument), and the list of coins passed to `analyze_sentiment`, in call
order. -/
structure WatchlistResult where
  reply : String
  priceCalls : List (List String)
  sentimentCalls : List String

/-- Embedding of the `/watchlist` handler body (lines 193-238): fetch
the subscriber's coins, batch one price lookup, then per coin (in
sorted order) compute sentiment live and render one line. -/
def watchlistHandler (env : SentimentEnv) (api : List String → PriceApiResult)
    (coins : List String) : WatchlistResult :=
  if coins.isEmpty then
    { reply := "Your watchlist is empty. Use /track [coin] to add one.",
      priceCalls := [], sentimentCalls := [] }
  else
    let prices := get_crypto_prices api coins
    let sorted := sortStrings coins
    let lines := sorted.map (fun coin => renderLine prices (analyze_sentiment env coin) coin)
    { reply := strJoin "\n\n" ("üìä **Your Watchlist:**\n" :: lines),
      priceCalls := [coins], sentimentCalls := sorted }

/-- The subscription store: the rows of the Supabase `watchlist` table,
each a `(chat_id, coin)` pair, with a unique constraint on the pair
(assumed by the handler's duplicate-key error handling). -/
abbrev Store := List (Int × String)

/-- The unique-constraint membership test backing the modelled insert. -/
def storeHas (s : Store) (cid : Int) (coin : String) : Bool :=
  decide ((cid, coin) ∈ s)

/-- Model of `supabase.table('watchlist').insert(...)`: appends the row,
or raises a duplicate-key error (returned as the exception's text, which
the handler inspects by substring) when the unique constraint on
`(chat_id, coin)` is violated. -/
def supabaseInsert (s : Store) (cid : Int) (coin : String) : Except String Store :=
  if storeHas s cid coin then
    .error "duplicate key value violates unique constraint (23505)"
  else .ok (s ++ [(cid, coin)])

/-- Embedding of the `/track` handler body (lines 139-160): lower-case
the coin, insert, and distinguish the duplicate-key exception from other
errors by substring match on the exception text. -/
def trackHandler (s : Store) (cid : Int) (coinArg : String) : Store × String :=
  let coin := strToLower coinArg
  match supabaseInsert s cid coin with
  | .ok s1 => (s1, "Added " ++ coin ++ " to your watchlist.")
  | .error e =>
    if containsSub "duplicate key" e || containsSub "23505" e then
      (s, coin ++ " is already in your watchlist.")
    else (s, "Error adding coin: " ++ e)

/-- Embedding of the `/untrack` handler body (lines 166-184):
lower-case the coin, delete all rows matching `(chat_id, coin)`, and
report `Removed`/`was not in your watchlist` according to whether the
delete returned any rows. -/
def untrackHandler (s : Store) (cid : Int) (coinArg : String) : Store × String :=
  let coin := strToLower coinArg
  let deleted := s.filter (fun r => r.1 == cid && r.2 == coin)
  let s1 := s.filter (fun r => !(r.1 == cid && r.2 == coin))
  if deleted.length > 0 then (s1, "Removed " ++ coin ++ " from your watchlist.")
  else (s1, coin ++ " was not in your watchlist.")

/-- Observable outcome of one run of the (disabled) `cron_job`
orchestrator: the delivery attempts in order (subscriber, message
body), the coins passed to `analyze_sentiment` in call order, the
price-provider invocations (the cron body contains none), and the
`processed_users` success counter. -/
structure CronResult where
  sends : List (Int × String)
  sentimentCalls : List String
  priceCalls : List (List String)
  processedUsers : Nat

/-- Append one row's coin to its subscriber's group, creating the group
at the end on first sight — Python dict insertion-order semantics of
the `user_coins` grouping loop. -/
def addToGroups (gs : List (Int × List String)) (cid : Int) (coin : String) :
    List (Int × List String) :=
  match gs with
  | [] => [(cid, [coin])]
  | g :: rest =>
    if g.1 = cid then (g.1, g.2 ++ [coin]) :: rest
    else g :: addToGroups rest cid coin

/-- The grouping loop of `cron_job` (lines 283-291): fold all snapshot
rows into per-subscriber coin lists. -/
def groupByChat (rows : List (Int × String)) : List (Int × List String) :=
  rows.foldl (fun gs r => addToGroups gs r.1 r.2) []

/-- Message header of the periodic update. -/
def cronHeader : String := "‚è∞ **30-Minute Update**\n\n"

/-- The per-subscriber loop of `cron_job` (lines 293-311): skip empty
coin lists, compute sentiment per coin, assemble one message, attempt
delivery, and count a success only when the send did not raise — a
failed send is caught and the loop continues with the next
subscriber. -/
def cronGo (env : SentimentEnv) (send : Int → String → Bool) :
    List (Int × List String) → CronResult
  | [] => { sends := [], sentimentCalls := [], priceCalls := [], processedUsers := 0 }
  | g :: gs =>
    if g.2.isEmpty then cronGo env send gs
    else
      let msgs := g.2.map (fun coin => "**" ++ strToUpper coin ++ "**: " ++ analyze_sentiment env coin)
      let full := cronHeader ++ strJoin "\n\n" msgs
      let ok := send g.1 full
      let rest := cronGo env send gs
      { sends := (g.1, full) :: rest.sends,
        sentimentCalls := g.2 ++ rest.sentimentCalls,
        priceCalls := rest.priceCalls,
        processedUsers := (if ok then 1 else 0) + rest.processedUsers }

/-- Embedding of the body of the (commented-out) `cron_job` route
(lines 265-320), given a configured environment: snapshot rows are
grouped by subscriber and processed in order.  The `send` oracle
returns whether the Telegram delivery succeeded (a raised delivery
exception is modelled as `false`, matching the per-send try/except). -/
def cron_job (env : SentimentEnv) (send : Int → String → Bool)
    (rows : List (Int × String)) : CronResult :=
  cronGo env send (groupByChat rows)

/-- The `chat` object of an inbound Telegram message, reduced to the
single field the handler reads. -/
structure ChatJson where
  id : Int
  deriving DecidableEq, Repr

/-- An inbound Telegram `message` object, reduced to the fields the
handler reads; `none` models an absent JSON key. -/
structure MessageJson where
  text : Option String := none
  chat : Option ChatJson := none

/-- An inbound Telegram update, reduced to the field the handler
reads. -/
structure UpdateJson where
  message : Option MessageJson := none

/-- Outcome of one webhook request: a Flask response with status code
and the `status` payload value, or an uncaught Python exception (which
Flask surfaces as an HTTP 500, not as one of the handler's own
responses). -/
inductive WebhookResponse
  | reply (status : Nat) (body : String)
  | crash (msg : String)
  deriving DecidableEq, Repr

/-- Result of one outbound `requests.post` to the Telegram API: the
call either completes or raises a transport exception carrying its
text.  Every reply send in the webhook source is unguarded (no
try/except around it), so a raised exception propagates out of the
handler. -/
inductive TgResult
  | ok
  | exn (msg : String)
  deriving DecidableEq, Repr

/-- The whole-process environment of the webhook: configuration flags,
provider oracles, the Gemini chat-fallback oracle, the Telegram
transport oracle and the current store contents. -/
structure BotEnv where
  supabaseOk : Bool
  telegramToken : Bool
  senv : SentimentEnv
  priceApi : List String → PriceApiResult
  chatModel : String → GeminiResult
  tgPost : Int → String → TgResult
  store : Store

/-- One unguarded `requests.post` reply send: on success the delivery
is recorded; on a transport exception nothing is delivered and the
exception text is returned for propagation. -/
def sendAlways (env : BotEnv) (cid : Int) (msg : String) :
    List (Int × String) × Option String :=
  match env.tgPost cid msg with
  | .ok => ([(cid, msg)], none)
  | .exn e => ([], some e)

/-- An outbound reply send guarded by `if TELEGRAM_TOKEN:`; without a
token no call is made and nothing can raise. -/
def sendIf (env : BotEnv) (cid : Int) (msg : String) :
    List (Int × String) × Option String :=
  if env.telegramToken then sendAlways env cid msg else ([], none)

/-- Outcome of the command dispatch: the store after the request, the
deliveries made, and the text of the uncaught exception when one of
the unguarded reply sends raised. -/
structure HandlerResult where
  store : Store
  sends : List (Int × String)
  raised : Option String

/-- Attach the outcome of a reply send to the store state reached
before it. -/
def withSend (store : Store) (s : List (Int × String) × Option String) : HandlerResult :=
  ⟨store, s.1, s.2⟩

/-- The `/start` and `/help` reply text (lines 106-115), code points
copied from the source file. -/
def welcomeText : String :=
  "üí£ **Welcome to CryptoBobomb!**\n\n" ++
  "I can analyze crypto sentiment and track prices for you.\n\n" ++
  "**Commands:**\n" ++
  "‚Ä¢ `/sentiment [coin]` - AI analysis of news\n" ++
  "‚Ä¢ `/track [coin]` - Add to watchlist\n" ++
  "‚Ä¢ `/untrack [coin]` - Remove from watchlist\n" ++
  "‚Ä¢ `/watchlist` - View your list\n\n" ++
  "Or just chat with me! I use Gemini 2.5 Pro. üß†"

/-- Embedding of the command dispatch over the lower-cased message text
(lines 99-261).  Provider and store failures inside the handlers are
caught by the source and turned into reply text, but every branch's
outbound `requests.post` reply send is unguarded: a transport
exception there is returned in `raised` and propagates out of the
request.  The conversation fallback's success path posts without the
`if TELEGRAM_TOKEN:` guard (line 241), hence `sendAlways` there. -/
def handleMessage (env : BotEnv) (chatId : Int) (text : String) : HandlerResult :=
  if strStartsWith text "/start" || strStartsWith text "/help" then
    withSend env.store (sendIf env chatId welcomeText)
  else if strStartsWith text "/sentiment" then
    let parts := text.splitOn " "
    let reply :=
      match parts.get? 1 with
      | some coin => analyze_sentiment env.senv coin
      | none => "Please provide a coin. Example: /sentiment bitcoin"
    withSend env.store (sendIf env chatId reply)
  else if strStartsWith text "/track" then
    let parts := text.splitOn " "
    match parts.get? 1, env.supabaseOk with
    | some coin, true =>
      let r := trackHandler env.store chatId coin
      withSend r.1 (sendIf env chatId r.2)
    | _, false => withSend env.store (sendIf env chatId "Database not configured.")
    | none, true => withSend env.store (sendIf env chatId "Usage: /track [coin]")
  else if strStartsWith text "/untrack" then
    let parts := text.splitOn " "
    match parts.get? 1, env.supabaseOk with
    | some coin, true =>
      let r := untrackHandler env.store chatId coin
      withSend r.1 (sendIf env chatId r.2)
    | _, false => withSend env.store (sendIf env chatId "Database not configured.")
    | none, true => withSend env.store (sendIf env chatId "Usage: /untrack [coin]")
  else if strStartsWith text "/watchlist" then
    if env.supabaseOk then
      let coins := (env.store.filter (fun r => r.1 == chatId)).map Prod.snd
      let r := watchlistHandler env.senv env.priceApi coins
      withSend env.store (sendIf env chatId r.reply)
    else withSend env.store (sendIf env chatId "Database not configured.")
  else if !(strStartsWith text "/") then
    match env.chatModel text with
    | .ok t => withSend env.store (sendAlways env chatId t.trim)
    | .exn e => withSend env.store (sendIf env chatId ("‚ö†Ô∏è Sorry, I ran into an error: " ++ e))
  else ⟨env.store, [], none⟩

/-- Embedding of the `/api/webhook` route (lines 93-263).  `none` as
the body models a request whose JSON parses to an empty or absent value
(Python falsiness of `update`).  A message carrying `text` but no
`chat` makes the source raise `KeyError` at
`update['message']['chat']['id']`; an unguarded reply send that raises
a transport exception likewise escapes the handler.  Both uncaught
exceptions surface as `crash` (Flask turns them into an HTTP 500, not
one of the handler's own responses); every other path falls through to
the final `return jsonify({'status': 'ok'}), 200`. -/
def webhook (env : BotEnv) (body : Option UpdateJson) :
    WebhookResponse × Store × List (Int × String) :=
  match body with
  | none => (.reply 400 "no data", env.store, [])
  | some u =>
    match u.message with
    | none => (.reply 200 "ok", env.store, [])
    | some m =>
      match m.text with
      | none => (.reply 200 "ok", env.store, [])
      | some t =>
        match m.chat with
        | none => (.crash "KeyError: chat", env.store, [])
        | some c =>
          let r := handleMessage env c.id (strToLower t)
          match r.raised with
          | some e => (.crash e, r.store, r.sends)
          | none => (.reply 200 "ok", r.store, r.sends)

/-- A minimal sentiment environment for concrete evaluations: no
configured keys, trivial oracles. -/
def trivEnv : SentimentEnv :=
  { newsApiKey := false, clientOk := false,
    news := fun _ => .ok [], gemini := fun _ => .ok "" }

/-- A sentiment environment whose news call fails with a non-200
response exactly for the coin `xyz` and succeeds otherwise. -/
def failEnv : SentimentEnv :=
  { newsApiKey := true, clientOk := true,
    news := fun c => if c == "xyz" then .httpError "rate limited" else .ok ["headline"],
    gemini := fun _ => .ok "BULLISH: strong momentum." }

/-- A price oracle returning one concrete quote. -/
def samplePriceApi : List String → PriceApiResult :=
  fun _ => .ok [("btc", { usd := some "65000", usd_24h_change := some 210 })]

/-- A price oracle that always returns HTTP 429. -/
def rateLimitedApi : List String → PriceApiResult :=
  fun _ => .httpError 429

/-- A delivery oracle that always succeeds. -/
def trivSend : Int → String → Bool := fun _ _ => true

/-- A delivery oracle that fails exactly for subscriber 1. -/
def sendFailOne : Int → String → Bool := fun cid _ => !(cid == 1)

/-- A minimal bot environment for concrete evaluations; its transport
never raises. -/
def trivBotEnv : BotEnv :=
  { supabaseOk := false, telegramToken := false, senv := trivEnv,
    priceApi := fun _ => .httpError 500,
    chatModel := fun _ => .exn "client not initialized",
    tgPost := fun _ _ => .ok, store := [] }

/-- A bot environment with a Telegram token whose transport raises a
connection error on every send. -/
def postFailBotEnv : BotEnv :=
  { supabaseOk := false, telegramToken := true, senv := trivEnv,
    priceApi := fun _ => .httpError 500,
    chatModel := fun _ => .exn "client not initialized",
    tgPost := fun _ _ => .exn "ConnectionError", store := [] }

/-! Helper lemmas. -/

theorem char_toLower_toLower (c : Char) : c.toLower.toLower = c.toLower := by
  unfold Char.toLower
  by_cases h : c.toNat ≥ 65 ∧ c.toNat ≤ 90
  · rw [if_pos h]
    have hv : (c.toNat + 32).isValidChar := Or.inl (by omega)
    have ht : (Char.ofNat (c.toNat + 32)).toNat = c.toNat + 32 := by
      rw [Char.ofNat, dif_pos hv]
      rfl
    rw [ht, if_neg (by omega)]
  · rw [if_neg h, if_neg h]

theorem strToLower_idem (s : String) : strToLower (strToLower s) = strToLower s := by
  unfold strToLower
  simp [List.map_map, Function.comp_def, char_toLower_toLower]

theorem data_strToLower (s : String) : (strToLower s).data = s.data.map Char.toLower := rfl

theorem infix_chunk (a x b : String) : x.data <:+: (a ++ x ++ b).data := by
  have : (a ++ x ++ b).data = a.data ++ x.data ++ b.data := by
    simp [String.data_append]
  rw [this]
  exact List.infix_append _ _ _

theorem mem_strJoin (sep x : String) (l : List String) (h : x ∈ l) :
    x.data <:+: (strJoin sep l).data := by
  induction l with
  | nil => cases h
  | cons y ys ih =>
    cases ys with
    | nil =>
      have hx : x = y := by simpa using h
      subst hx
      exact ⟨[], [], by simp [strJoin]⟩
    | cons z zs =>
      rcases List.mem_cons.mp h with h1 | h2
      · subst h1
        exact ⟨[], sep.data ++ (strJoin sep (z :: zs)).data,
          by simp [strJoin, String.data_append]⟩
      · refine (ih h2).trans ?_
        exact ⟨y.data ++ sep.data, [],
          by simp [strJoin, String.data_append]⟩

theorem mem_insertSorted (x y : String) (l : List String) :
    x ∈ insertSorted y l ↔ x = y ∨ x ∈ l := by
  induction l with
  | nil => simp [insertSorted]
  | cons z zs ih =>
    by_cases h : y ≤ z
    · simp [insertSorted, h]
    · simp only [insertSorted, if_neg h, List.mem_cons, ih]
      tauto

theorem mem_sortStrings (x : String) (l : List String) :
    x ∈ sortStrings l ↔ x ∈ l := by
  induction l with
  | nil => simp [sortStrings]
  | cons y ys ih =>
    have : sortStrings (y :: ys) = insertSorted y (sortStrings ys) := rfl
    rw [this, mem_insertSorted, ih, List.mem_cons]

theorem char_toUpper_toLower (c : Char) : c.toLower.toUpper = c.toUpper := by
  by_cases h : c.toNat ≥ 65 ∧ c.toNat ≤ 90
  · have hv : (c.toNat + 32).isValidChar := Or.inl (by omega)
    have ht : (Char.ofNat (c.toNat + 32)).toNat = c.toNat + 32 := by
      rw [Char.ofNat, dif_pos hv]
      rfl
    have hlow : c.toLower = Char.ofNat (c.toNat + 32) := by
      unfold Char.toLower
      rw [if_pos h]
    have hup1 : (Char.ofNat (c.toNat + 32)).toUpper = Char.ofNat (c.toNat + 32 - 32) := by
      unfold Char.toUpper
      rw [ht, if_pos (by omega)]
    have hup2 : c.toUpper = c := by
      unfold Char.toUpper
      rw [if_neg (by omega)]
    rw [hlow, hup1, hup2]
    have : c.toNat + 32 - 32 = c.toNat := by omega
    rw [this]
    simp
  · have hlow : c.toLower = c := by
      unfold Char.toLower
      rw [if_neg h]
    rw [hlow]

theorem strToUpper_strToLower (s : String) :
    strToUpper (strToLower s) = strToUpper s := by
  unfold strToLower strToUpper
  simp [List.map_map, Function.comp_def, char_toUpper_toLower]

/-- C1: the first of two identical `/track` calls for a pair not yet in
the store replies `Added`, the second replies `already in your
watchlist` (a distinct non-error reply produced by catching the
duplicate-key exception), and the store is unchanged by the second
call. -/
theorem track_add_idempotent (s : Store) (cid : Int) (c : String)
    (h : storeHas s cid (strToLower c) = false) :
    (trackHandler s cid c).2 = "Added " ++ strToLower c ++ " to your watchlist." ∧
    (trackHandler (trackHandler s cid c).1 cid c).2 =
      strToLower c ++ " is already in your watchlist." ∧
    (trackHandler (trackHandler s cid c).1 cid c).1 = (trackHandler s cid c).1 := by
  have hdup : containsSub "duplicate key"
      "duplicate key value violates unique constraint (23505)" = true := by decide
  have h1 : trackHandler s cid c =
      (s ++ [(cid, strToLower c)], "Added " ++ strToLower c ++ " to your watchlist.") := by
    simp [trackHandler, supabaseInsert, h]
  have h2 : storeHas (s ++ [(cid, strToLower c)]) cid (strToLower c) = true := by
    simp [storeHas]
  refine ⟨by rw [h1], ?_, ?_⟩ <;>
    · rw [h1]
      simp [trackHandler, supabaseInsert, h2, hdup]

/-- C1 witness: concrete instance at the empty store. -/
theorem track_add_idempotent_witness :
    storeHas [] 1 (strToLower "btc") = false ∧
    ((trackHandler [] 1 "btc").2 = "Added " ++ strToLower "btc" ++ " to your watchlist." ∧
     (trackHandler (trackHandler [] 1 "btc").1 1 "btc").2 =
       strToLower "btc" ++ " is already in your watchlist." ∧
     (trackHandler (trackHandler [] 1 "btc").1 1 "btc").1 = (trackHandler [] 1 "btc").1) :=
  ⟨by decide, track_add_idempotent [] 1 "btc" (by decide)⟩

/-- C8: `/untrack` on an absent pair replies `was not in your
watchlist` and leaves the store unchanged (no error); on a present pair
it replies `Removed`, the pair is deleted, and all other rows are
kept. -/
theorem untrack_outcomes (s : Store) (cid : Int) (c : String) :
    ((cid, strToLower c) ∉ s →
      (untrackHandler s cid c).2 = strToLower c ++ " was not in your watchlist." ∧
      (untrackHandler s cid c).1 = s) ∧
    ((cid, strToLower c) ∈ s →
      (untrackHandler s cid c).2 = "Removed " ++ strToLower c ++ " from your watchlist." ∧
      (cid, strToLower c) ∉ (untrackHandler s cid c).1 ∧
      ∀ r ∈ s, r ≠ (cid, strToLower c) → r ∈ (untrackHandler s cid c).1) := by
  have pair_eq : ∀ r : Int × String, r.1 = cid → r.2 = strToLower c →
      r = (cid, strToLower c) := by
    intro r h1 h2
    cases r
    simp_all
  constructor
  · intro hnot
    have hfil : s.filter (fun r => r.1 == cid && r.2 == strToLower c) = [] := by
      rw [List.filter_eq_nil_iff]
      intro r hr
      simp only [Bool.and_eq_true, beq_iff_eq, not_and]
      intro h1 h2
      exact hnot (pair_eq r h1 h2 ▸ hr)
    have hkeep : s.filter (fun r => !(r.1 == cid && r.2 == strToLower c)) = s := by
      rw [List.filter_eq_self]
      intro r hr
      simp only [Bool.not_eq_eq_eq_not, Bool.not_true, Bool.and_eq_false_iff, beq_eq_false_iff_ne,
        ne_eq]
      by_contra hcon
      push_neg at hcon
      exact hnot (pair_eq r hcon.1 hcon.2 ▸ hr)
    simp only [untrackHandler, hfil, hkeep]
    simp
  · intro hmem
    have hfil : (cid, strToLower c) ∈ s.filter (fun r => r.1 == cid && r.2 == strToLower c) := by
      simp [List.mem_filter, hmem]
    have hlen : (s.filter (fun r => r.1 == cid && r.2 == strToLower c)).length > 0 :=
      List.length_pos.mpr (List.ne_nil_of_mem hfil)
    simp only [untrackHandler, if_pos hlen]
    refine ⟨by trivial, ?_, ?_⟩
    · intro hcon
      have := (List.mem_filter.mp hcon).2
      simp at this
    · intro r hr hne
      refine List.mem_filter.mpr ⟨hr, ?_⟩
      simp only [Bool.not_eq_eq_eq_not, Bool.not_true, Bool.and_eq_false_iff, beq_eq_false_iff_ne,
        ne_eq]
      by_contra hcon
      push_neg at hcon
      exact hne (pair_eq r hcon.1 hcon.2)

/-- C8 witness: concrete instances of both outcomes. -/
theorem untrack_outcomes_witness :
    (((1 : Int), strToLower "btc") ∉ ([] : Store) ∧
      ((untrackHandler [] 1 "btc").2 = strToLower "btc" ++ " was not in your watchlist." ∧
       (untrackHandler [] 1 "btc").1 = [])) ∧
    (((1 : Int), strToLower "btc") ∈ ([(1, "btc")] : Store) ∧
      ((untrackHandler [(1, "btc")] 1 "btc").2 =
         "Removed " ++ strToLower "btc" ++ " from your watchlist." ∧
       ((1 : Int), strToLower "btc") ∉ (untrackHandler [(1, "btc")] 1 "btc").1 ∧
       ∀ r ∈ ([(1, "btc")] : Store), r ≠ (1, strToLower "btc") →
         r ∈ (untrackHandler [(1, "btc")] 1 "btc").1)) :=
  ⟨⟨by decide, (untrack_outcomes [] 1 "btc").1 (by decide)⟩,
   ⟨by decide, (untrack_outcomes [(1, "btc")] 1 "btc").2 (by decide)⟩⟩

/-- C9: both mutation handlers lower-case the coin before passing it to
the store, so the all-stored-coins-are-lower-case invariant is
preserved by `/track` and `/untrack`, and both handlers are invariant
under pre-lower-casing their argument. -/
theorem store_mutations_lowercase (s : Store) (cid : Int) (arg : String)
    (h : ∀ r ∈ s, strToLower r.2 = r.2) :
    (∀ r ∈ (trackHandler s cid arg).1, strToLower r.2 = r.2) ∧
    (∀ r ∈ (untrackHandler s cid arg).1, strToLower r.2 = r.2) ∧
    trackHandler s cid (strToLower arg) = trackHandler s cid arg ∧
    untrackHandler s cid (strToLower arg) = untrackHandler s cid arg := by
  have hdup : containsSub "duplicate key"
      "duplicate key value violates unique constraint (23505)" = true := by decide
  refine ⟨?_, ?_, ?_, ?_⟩
  · intro r hr
    by_cases hb : storeHas s cid (strToLower arg) = true
    · simp only [trackHandler, supabaseInsert, hb, if_true, hdup, Bool.true_or] at hr
      exact h r hr
    · rw [Bool.not_eq_true] at hb
      simp only [trackHandler, supabaseInsert, hb, Bool.false_eq_true, if_false] at hr
      rcases List.mem_append.mp hr with h1 | h2
      · exact h r h1
      · have : r = (cid, strToLower arg) := by simpa using h2
        rw [this]
        exact strToLower_idem arg
  · intro r hr
    by_cases hp : (s.filter (fun r => r.1 == cid && r.2 == strToLower arg)).length > 0
    · simp only [untrackHandler, if_pos hp] at hr
      exact h r (List.mem_filter.mp hr).1
    · simp only [untrackHandler, if_neg hp] at hr
      exact h r (List.mem_filter.mp hr).1
  · simp only [trackHandler, strToLower_idem]
  · simp only [untrackHandler, strToLower_idem]

/-- C9 witness: concrete instance at a lower-case store. -/
theorem store_mutations_lowercase_witness :
    (∀ r ∈ ([(1, "btc")] : Store), strToLower r.2 = r.2) ∧
    ((∀ r ∈ (trackHandler [(1, "btc")] 1 "ETH").1, strToLower r.2 = r.2) ∧
     (∀ r ∈ (untrackHandler [(1, "btc")] 1 "ETH").1, strToLower r.2 = r.2) ∧
     trackHandler [(1, "btc")] 1 (strToLower "ETH") = trackHandler [(1, "btc")] 1 "ETH" ∧
     untrackHandler [(1, "btc")] 1 (strToLower "ETH") = untrackHandler [(1, "btc")] 1 "ETH") :=
  ⟨by decide, store_mutations_lowercase [(1, "btc")] 1 "ETH" (by decide)⟩

/-- C5 counterexample: the text `"bullish bearish"` contains the
keyword `bearish` yet is labeled bullish, because the handler tests
`BULLISH` first — so "a text containing `bearish` is labeled bearish"
fails as a universal statement. -/
theorem classify_both_keywords_counterexample :
    containsSub "bearish" "bullish bearish" = true ∧
    containsSub "BEARISH" (strToUpper "bullish bearish") = true ∧
    classify "bullish bearish" = Verdict.bullish ∧
    classify "bullish bearish" ≠ Verdict.bearish := by decide

/-- C5 (amended): classification is by case-insensitive substring match
with `BULLISH` taking precedence over `BEARISH`: a text whose uppercase
form contains `BULLISH` is labeled bullish; one containing `BEARISH`
but not `BULLISH` is labeled bearish; all other texts are neutral; the
label is insensitive to the case of the input and classification is a
total function (never an error). -/
theorem classify_cases (s : String) :
    (containsSub "BULLISH" (strToUpper s) = true → classify s = Verdict.bullish) ∧
    (containsSub "BULLISH" (strToUpper s) = false →
      containsSub "BEARISH" (strToUpper s) = true → classify s = Verdict.bearish) ∧
    (containsSub "BULLISH" (strToUpper s) = false →
      containsSub "BEARISH" (strToUpper s) = false → classify s = Verdict.neutral) ∧
    classify (strToLower s) = classify s := by
  refine ⟨?_, ?_, ?_, ?_⟩
  · intro h1
    simp [classify, h1]
  · intro h1 h2
    simp [classify, h1, h2]
  · intro h1 h2
    simp [classify, h1, h2]
  · unfold classify
    rw [strToUpper_strToLower]

/-- C5 witness: concrete instances of the three amended branches. -/
theorem classify_cases_witness :
    (containsSub "BULLISH" (strToUpper "Very BuLLish!") = true ∧
      classify "Very BuLLish!" = Verdict.bullish) ∧
    (containsSub "BULLISH" (strToUpper "bearish mood") = false ∧
      containsSub "BEARISH" (strToUpper "bearish mood") = true ∧
      classify "bearish mood" = Verdict.bearish) ∧
    (containsSub "BULLISH" (strToUpper "nothing here") = false ∧
      containsSub "BEARISH" (strToUpper "nothing here") = false ∧
      classify "nothing here" = Verdict.neutral) :=
  ⟨⟨by decide, (classify_cases "Very BuLLish!").1 (by decide)⟩,
   ⟨by decide, by decide, (classify_cases "bearish mood").2.1 (by decide) (by decide)⟩,
   ⟨by decide, by decide, (classify_cases "nothing here").2.2.1 (by decide) (by decide)⟩⟩

theorem sentiment_infix_renderLine (prices : List (String × PriceEntry))
    (sent coin : String) :
    sent.data <:+: (renderLine prices sent coin).data := by
  refine ⟨(verdictEmoji sent).data ++ " **".data ++ (titleCase coin).data ++ "**: $".data ++
      (priceField prices coin).data ++ (changeField prices coin).data ++ "\n_".data,
    "_".data, ?_⟩
  simp [renderLine, String.data_append]

theorem priceField_infix_renderLine (prices : List (String × PriceEntry))
    (sent coin : String) :
    (priceField prices coin).data <:+: (renderLine prices sent coin).data := by
  refine ⟨(verdictEmoji sent).data ++ " **".data ++ (titleCase coin).data ++ "**: $".data,
    (changeField prices coin).data ++ "\n_".data ++ sent.data ++ "_".data, ?_⟩
  simp [renderLine, String.data_append]

theorem changeField_infix_renderLine (prices : List (String × PriceEntry))
    (sent coin : String) :
    (changeField prices coin).data <:+: (renderLine prices sent coin).data := by
  refine ⟨(verdictEmoji sent).data ++ " **".data ++ (titleCase coin).data ++ "**: $".data ++
      (priceField prices coin).data,
    "\n_".data ++ sent.data ++ "_".data, ?_⟩
  simp [renderLine, String.data_append]

theorem line_infix_watchlist (env : SentimentEnv) (api : List String → PriceApiResult)
    (coins : List String) (c : String) (hc : c ∈ coins) :
    (renderLine (get_crypto_prices api coins) (analyze_sentiment env c) c).data <:+:
      (watchlistHandler env api coins).reply.data := by
  have hne : coins.isEmpty = false := by
    cases coins
    · cases hc
    · rfl
  simp only [watchlistHandler, hne, Bool.false_eq_true, if_false]
  apply mem_strJoin
  exact List.mem_cons_of_mem _
    (List.mem_map_of_mem _ ((mem_sortStrings c coins).mpr hc))

/-- C4: when the sentiment provider fails for a tracked coin (here: a
non-200 NewsAPI response), `analyze_sentiment` returns an explicit
failure marker string instead of raising, that marker is rendered
inside the coin's line, and the assembled `/watchlist` reply contains a
line for every tracked coin — the failing coin's degraded line included
— so no coin is omitted and the message never fails. -/
theorem degraded_line_rendered (env : SentimentEnv) (api : List String → PriceApiResult)
    (coins : List String) (c m : String)
    (hc : c ∈ coins) (hkey : env.newsApiKey = true) (hcl : env.clientOk = true)
    (hfail : env.news c = NewsResult.httpError m) :
    analyze_sentiment env c = "Error fetching news: " ++ m ∧
    ("Error fetching news: " ++ m).data <:+:
      (renderLine (get_crypto_prices api coins) (analyze_sentiment env c) c).data ∧
    (renderLine (get_crypto_prices api coins) (analyze_sentiment env c) c).data <:+:
      (watchlistHandler env api coins).reply.data ∧
    ∀ c2 ∈ coins,
      (renderLine (get_crypto_prices api coins) (analyze_sentiment env c2) c2).data <:+:
        (watchlistHandler env api coins).reply.data := by
  have hs : analyze_sentiment env c = "Error fetching news: " ++ m := by
    simp [analyze_sentiment, hkey, hcl, hfail]
  refine ⟨hs, ?_, ?_, ?_⟩
  · rw [hs]
    exact sentiment_infix_renderLine _ _ _
  · exact line_infix_watchlist env api coins c hc
  · intro c2 hc2
    exact line_infix_watchlist env api coins c2 hc2

/-- C4 witness: a subscriber tracking `btc` and `xyz` where the news
call fails for `xyz` only. -/
theorem degraded_line_rendered_witness :
    ("xyz" ∈ ["btc", "xyz"] ∧ failEnv.newsApiKey = true ∧ failEnv.clientOk = true ∧
      failEnv.news "xyz" = NewsResult.httpError "rate limited") ∧
    (analyze_sentiment failEnv "xyz" = "Error fetching news: " ++ "rate limited" ∧
     ("Error fetching news: " ++ "rate limited").data <:+:
       (renderLine (get_crypto_prices samplePriceApi ["btc", "xyz"])
         (analyze_sentiment failEnv "xyz") "xyz").data ∧
     (renderLine (get_crypto_prices samplePriceApi ["btc", "xyz"])
         (analyze_sentiment failEnv "xyz") "xyz").data <:+:
       (watchlistHandler failEnv samplePriceApi ["btc", "xyz"]).reply.data ∧
     ∀ c2 ∈ ["btc", "xyz"],
       (renderLine (get_crypto_prices samplePriceApi ["btc", "xyz"])
           (analyze_sentiment failEnv c2) c2).data <:+:
         (watchlistHandler failEnv samplePriceApi ["btc", "xyz"]).reply.data) :=
  ⟨⟨by decide, rfl, rfl, by decide⟩,
   degraded_line_rendered failEnv samplePriceApi ["btc", "xyz"] "xyz" "rate limited"
     (by decide) rfl rfl (by decide)⟩

/-- C7 counterexample: for a coin absent from the price mapping the
price field does render the `N/A` placeholder, but the 24h-change field
renders as the numeric `0.00%` with an up arrow — byte-identical to the
rendering of a genuine zero change, and no `no data` marker appears —
so "renders that coin's price fields as no data" fails for the change
field. -/
theorem absent_coin_render_counterexample :
    priceField [] "btc" = "N/A" ∧
    changeField [] "btc" = changeStr (some 0) ∧
    (changeField [] "btc").data <:+: (renderLine [] "NEUTRAL" "btc").data ∧
    ¬ ("no data".data <:+: (renderLine [] "NEUTRAL" "btc").data) := by
  refine ⟨by decide, by decide, changeField_infix_renderLine [] "NEUTRAL" "btc", by decide⟩

/-- C7 (amended): `get_crypto_prices` never raises and returns the
empty mapping on a non-200 response or a raised exception; a coin
absent from the returned mapping has its price rendered as the `N/A`
placeholder — but its 24h change rendered as the numeric default
`0.00%` with an up arrow — inside a line that is still assembled, so
the pipeline never fails. -/
theorem price_failure_amended (api : List String → PriceApiResult) (coins : List String)
    (prices : List (String × PriceEntry)) (sent coin : String) :
    (∀ code, api coins = PriceApiResult.httpError code → get_crypto_prices api coins = []) ∧
    (∀ e, api coins = PriceApiResult.exn e → get_crypto_prices api coins = []) ∧
    (prices.lookup coin = none →
      priceField prices coin = "N/A" ∧
      changeField prices coin = changeStr (some 0) ∧
      "N/A".data <:+: (renderLine prices sent coin).data ∧
      (changeStr (some 0)).data <:+: (renderLine prices sent coin).data) := by
  refine ⟨?_, ?_, ?_⟩
  · intro code hcode
    unfold get_crypto_prices
    rw [hcode]
    simp
  · intro e he
    unfold get_crypto_prices
    rw [he]
    simp
  · intro hnone
    have hentry : lookupEntry prices coin = {} := by
      unfold lookupEntry
      rw [hnone]
    have hp : priceField prices coin = "N/A" := by
      unfold priceField
      rw [hentry]
      rfl
    have hch : changeField prices coin = changeStr (some 0) := by
      unfold changeField
      rw [hentry]
      rfl
    refine ⟨hp, hch, ?_, ?_⟩
    · rw [← hp]
      exact priceField_infix_renderLine prices sent coin
    · rw [← hch]
      exact changeField_infix_renderLine prices sent coin

/-- C7 witness: a 429 response yields the empty mapping, and the
degraded rendering instance at the empty mapping. -/
theorem price_failure_amended_witness :
    (rateLimitedApi ["btc"] = PriceApiResult.httpError 429 ∧
      get_crypto_prices rateLimitedApi ["btc"] = []) ∧
    (([] : List (String × PriceEntry)).lookup "btc" = none ∧
      (priceField [] "btc" = "N/A" ∧
       changeField [] "btc" = changeStr (some 0) ∧
       "N/A".data <:+: (renderLine [] "BEARISH news" "btc").data ∧
       (changeStr (some 0)).data <:+: (renderLine [] "BEARISH news" "btc").data)) :=
  ⟨⟨by decide,
    (price_failure_amended rateLimitedApi ["btc"] [] "BEARISH news" "btc").1 429 (by decide)⟩,
   ⟨by decide,
    (price_failure_amended rateLimitedApi ["btc"] [] "BEARISH news" "btc").2.2 (by decide)⟩⟩

theorem count_flatten_addToGroups (gs : List (Int × List String)) (cid : Int)
    (coin c : String) :
    (((addToGroups gs cid coin).map Prod.snd).flatten).count c
      = ((gs.map Prod.snd).flatten).count c + (if coin = c then 1 else 0) := by
  have hsingle : List.count c [coin] = if coin = c then 1 else 0 := by
    by_cases h : coin = c
    · subst h
      simp
    · rw [if_neg h, List.count_eq_zero]
      simp only [List.mem_singleton]
      exact fun hc => h hc.symm
  induction gs with
  | nil =>
    simp only [addToGroups, List.map_cons, List.map_nil, List.flatten_cons,
      List.flatten_nil, List.append_nil, List.count_nil, hsingle]
    omega
  | cons g rest ih =>
    by_cases hg : g.1 = cid
    · simp only [addToGroups, if_pos hg, List.map_cons, List.flatten_cons,
        List.count_append, ih, hsingle]
      omega
    · simp only [addToGroups, if_neg hg, List.map_cons, List.flatten_cons,
        List.count_append, ih]
      omega

theorem count_flatten_groupFold (rows : List (Int × String))
    (gs : List (Int × List String)) (c : String) :
    (((rows.foldl (fun a r => addToGroups a r.1 r.2) gs).map Prod.snd).flatten).count c
      = ((gs.map Prod.snd).flatten).count c + (rows.map Prod.snd).count c := by
  induction rows generalizing gs with
  | nil => simp
  | cons r rest ih =>
    simp only [List.foldl_cons, List.map_cons]
    rw [ih, count_flatten_addToGroups, List.count_cons]
    have : (r.2 == c : Bool) = (decide (r.2 = c)) := by
      by_cases h : r.2 = c <;> simp [h]
    simp only [this]
    by_cases h : r.2 = c <;> simp [h] <;> omega

theorem cronGo_sentimentCalls (env : SentimentEnv) (send : Int → String → Bool)
    (gs : List (Int × List String)) :
    (cronGo env send gs).sentimentCalls = (gs.map Prod.snd).flatten := by
  induction gs with
  | nil => rfl
  | cons g rest ih =>
    by_cases hg : g.2.isEmpty = true
    · have hnil : g.2 = [] := by
        cases h2 : g.2
        · rfl
        · rw [h2] at hg
          cases hg
      simp [cronGo, hg, ih, hnil]
    · rw [Bool.not_eq_true] at hg
      simp [cronGo, hg, ih]

theorem cronGo_priceCalls (env : SentimentEnv) (send : Int → String → Bool)
    (gs : List (Int × List String)) :
    (cronGo env send gs).priceCalls = [] := by
  induction gs with
  | nil => rfl
  | cons g rest ih =>
    by_cases hg : g.2.isEmpty = true
    · simp [cronGo, hg, ih]
    · rw [Bool.not_eq_true] at hg
      simp [cronGo, hg, ih]

theorem cronGo_sends_send_independent (env : SentimentEnv)
    (send send2 : Int → String → Bool) (gs : List (Int × List String)) :
    (cronGo env send gs).sends = (cronGo env send2 gs).sends := by
  induction gs with
  | nil => rfl
  | cons g rest ih =>
    by_cases hg : g.2.isEmpty = true
    · simp [cronGo, hg, ih]
    · rw [Bool.not_eq_true] at hg
      simp [cronGo, hg, ih]

theorem cronGo_processedUsers (env : SentimentEnv) (send : Int → String → Bool)
    (gs : List (Int × List String)) :
    (cronGo env send gs).processedUsers
      = (cronGo env send gs).sends.countP (fun p => send p.1 p.2) := by
  induction gs with
  | nil => rfl
  | cons g rest ih =>
    by_cases hg : g.2.isEmpty = true
    · simp [cronGo, hg, ih]
    · rw [Bool.not_eq_true] at hg
      simp only [cronGo, hg, Bool.false_eq_true, if_false, List.countP_cons]
      rw [ih]
      by_cases hs : send g.1 (cronHeader ++ strJoin "\n\n"
          (g.2.map (fun coin => "**" ++ strToUpper coin ++ "**: " ++
            analyze_sentiment env coin))) = true <;> simp [hs] <;> omega

theorem mem_addToGroups_self (gs : List (Int × List String)) (cid : Int) (coin : String) :
    ∃ cs, (cid, cs) ∈ addToGroups gs cid coin ∧ coin ∈ cs := by
  induction gs with
  | nil => exact ⟨[coin], by simp [addToGroups]⟩
  | cons g rest ih =>
    by_cases hg : g.1 = cid
    · refine ⟨g.2 ++ [coin], ?_, by simp⟩
      simp [addToGroups, hg]
    · obtain ⟨cs, h1, h2⟩ := ih
      exact ⟨cs, by simp [addToGroups, hg, h1], h2⟩

theorem mem_addToGroups_of_mem (gs : List (Int × List String)) (cid cid2 : Int)
    (coin : String) (cs : List String) (h : (cid2, cs) ∈ gs) :
    ∃ cs2, (cid2, cs2) ∈ addToGroups gs cid coin ∧ cs ⊆ cs2 := by
  induction gs with
  | nil => cases h
  | cons g rest ih =>
    obtain ⟨a, b⟩ := g
    rcases List.mem_cons.mp h with h1 | h2
    · injection h1 with ha hb
      subst ha
      subst hb
      by_cases hg : cid2 = cid
      · refine ⟨cs ++ [coin], ?_, List.subset_append_left _ _⟩
        simp [addToGroups, hg]
      · exact ⟨cs, by simp [addToGroups, hg], List.Subset.refl _⟩
    · by_cases hg : a = cid
      · exact ⟨cs, by simp [addToGroups, hg, h2], List.Subset.refl _⟩
      · obtain ⟨cs2, hm, hsub⟩ := ih h2
        exact ⟨cs2, by simp [addToGroups, hg, hm], hsub⟩

theorem mem_groupFold (rows : List (Int × String)) (gs : List (Int × List String))
    (cid : Int) (coin : String)
    (h : (cid, coin) ∈ rows ∨ ∃ cs, (cid, cs) ∈ gs ∧ coin ∈ cs) :
    ∃ cs, (cid, cs) ∈ rows.foldl (fun a r => addToGroups a r.1 r.2) gs ∧ coin ∈ cs := by
  induction rows generalizing gs with
  | nil =>
    rcases h with h1 | h2
    · cases h1
    · exact h2
  | cons r rest ih =>
    obtain ⟨a, b⟩ := r
    simp only [List.foldl_cons]
    apply ih
    rcases h with h1 | ⟨cs, hm, hc⟩
    · rcases List.mem_cons.mp h1 with h2 | h3
      · injection h2 with ha hb
        subst ha
        subst hb
        exact Or.inr (mem_addToGroups_self gs cid coin)
      · exact Or.inl h3
    · right
      obtain ⟨cs2, hm2, hsub⟩ := mem_addToGroups_of_mem gs a cid b cs hm
      exact ⟨cs2, hm2, hsub hc⟩

theorem cronGo_sends_of_group (env : SentimentEnv) (send : Int → String → Bool)
    (gs : List (Int × List String)) (cid : Int) (cs : List String)
    (hm : (cid, cs) ∈ gs) (hne : cs ≠ []) :
    ∃ msg, (cid, msg) ∈ (cronGo env send gs).sends := by
  induction gs with
  | nil => cases hm
  | cons g rest ih =>
    obtain ⟨a, b⟩ := g
    rcases List.mem_cons.mp hm with h1 | h2
    · injection h1 with ha hb
      subst ha
      subst hb
      have hg : cs.isEmpty = false := by
        cases cs
        · cases hne rfl
        · rfl
      refine ⟨cronHeader ++ strJoin "\n\n"
        (cs.map (fun coin => "**" ++ strToUpper coin ++ "**: " ++
          analyze_sentiment env coin)), ?_⟩
      simp [cronGo, hg]
    · by_cases hg : b.isEmpty = true
      · obtain ⟨msg, hmsg⟩ := ih h2
        exact ⟨msg, by simp only [cronGo, hg, if_true]; exact hmsg⟩
      · rw [Bool.not_eq_true] at hg
        obtain ⟨msg, hmsg⟩ := ih h2
        refine ⟨msg, ?_⟩
        simp only [cronGo, hg, Bool.false_eq_true, if_false]
        exact List.mem_cons_of_mem _ hmsg

/-- C2 counterexample: two subscribers both tracking `btc` make the
cron run pass `btc` to the sentiment provider twice — the run does not
deduplicate sentiment work per distinct coin. -/
theorem cron_sentiment_dedup_counterexample :
    ((cron_job trivEnv trivSend [(1, "btc"), (2, "btc")]).sentimentCalls).count "btc" = 2 ∧
    ¬ (((cron_job trivEnv trivSend [(1, "btc"), (2, "btc")]).sentimentCalls).count "btc" ≤ 1) := by
  decide

/-- C2 (amended): within one cron run the sentiment provider is invoked
exactly once per `(subscriber, coin)` snapshot row — a coin tracked by
`n` subscribers is analyzed `n` times, with no cross-subscriber
deduplication. -/
theorem cron_sentiment_per_pair (env : SentimentEnv) (send : Int → String → Bool)
    (rows : List (Int × String)) (c : String) :
    ((cron_job env send rows).sentimentCalls).count c = (rows.map Prod.snd).count c := by
  unfold cron_job groupByChat
  rw [cronGo_sentimentCalls, count_flatten_groupFold]
  simp

/-- C3 counterexample: a cron run over a non-empty snapshot performs
zero price-provider calls, not exactly one — the batch orchestrator
never consults the price provider at all. -/
theorem cron_price_calls_counterexample :
    (cron_job trivEnv trivSend [(1, "btc")]).priceCalls.length = 0 ∧
    (cron_job trivEnv trivSend [(1, "btc")]).priceCalls.length ≠ 1 := by
  decide

/-- C3 (amended): the batch cron run performs no price-provider calls
at all (its messages carry sentiment only); the one-shot price batching
exists only in the interactive `/watchlist` handler, which calls the
price provider exactly once per invocation with the single requesting
subscriber's full coin list, not with a union across subscribers. -/
theorem price_batching_amended (env : SentimentEnv) (send : Int → String → Bool)
    (rows : List (Int × String)) (env2 : SentimentEnv)
    (api : List String → PriceApiResult) (coins : List String) :
    (cron_job env send rows).priceCalls = [] ∧
    (coins ≠ [] → (watchlistHandler env2 api coins).priceCalls = [coins]) := by
  constructor
  · exact cronGo_priceCalls env send _
  · intro hne
    have h : coins.isEmpty = false := by
      cases coins
      · cases hne rfl
      · rfl
    simp [watchlistHandler, h]

/-- C3 witness: concrete instances of both conjuncts. -/
theorem price_batching_amended_witness :
    (cron_job trivEnv trivSend [(1, "btc"), (2, "eth")]).priceCalls = [] ∧
    ((["eth", "btc"] : List String) ≠ [] ∧
      (watchlistHandler trivEnv samplePriceApi ["eth", "btc"]).priceCalls = [["eth", "btc"]]) :=
  ⟨(price_batching_amended trivEnv trivSend [(1, "btc"), (2, "eth")] trivEnv
      samplePriceApi ["eth", "btc"]).1,
   by decide,
   (price_batching_amended trivEnv trivSend [(1, "btc"), (2, "eth")] trivEnv
      samplePriceApi ["eth", "btc"]).2 (by decide)⟩

/-- C6: in one cron run, every subscriber appearing in the snapshot
gets a delivery attempt; the list of attempts (recipients and message
bodies) is identical no matter which deliveries fail, so one
subscriber's failure never aborts any other subscriber's processing;
and the run's success counter records exactly the successful
attempts. -/
theorem delivery_failure_isolation (env : SentimentEnv)
    (send send2 : Int → String → Bool) (rows : List (Int × String))
    (cid : Int) (coin : String) (h : (cid, coin) ∈ rows) :
    (∃ msg, (cid, msg) ∈ (cron_job env send rows).sends) ∧
    (cron_job env send rows).sends = (cron_job env send2 rows).sends ∧
    (cron_job env send rows).processedUsers
      = (cron_job env send rows).sends.countP (fun p => send p.1 p.2) := by
  refine ⟨?_, ?_, ?_⟩
  · obtain ⟨cs, hm, hc⟩ := mem_groupFold rows [] cid coin (Or.inl h)
    exact cronGo_sends_of_group env send _ cid cs hm (List.ne_nil_of_mem hc)
  · exact cronGo_sends_send_independent env send send2 _
  · exact cronGo_processedUsers env send _

/-- C6 witness: delivery fails for subscriber 1, yet subscriber 2 still
receives an attempt and the attempt list matches the all-success
run. -/
theorem delivery_failure_isolation_witness :
    ((2 : Int), "b") ∈ ([(1, "a"), (2, "b")] : List (Int × String)) ∧
    ((∃ msg, ((2 : Int), msg) ∈ (cron_job trivEnv sendFailOne [(1, "a"), (2, "b")]).sends) ∧
     (cron_job trivEnv sendFailOne [(1, "a"), (2, "b")]).sends
       = (cron_job trivEnv trivSend [(1, "a"), (2, "b")]).sends ∧
     (cron_job trivEnv sendFailOne [(1, "a"), (2, "b")]).processedUsers
       = (cron_job trivEnv sendFailOne [(1, "a"), (2, "b")]).sends.countP
           (fun p => sendFailOne p.1 p.2)) :=
  ⟨by decide,
   delivery_failure_isolation trivEnv sendFailOne trivSend [(1, "a"), (2, "b")] 2 "b"
     (by decide)⟩

theorem sendAlways_no_raise (env : BotEnv) (cid : Int) (msg : String)
    (hpost : ∀ c m, env.tgPost c m = TgResult.ok) :
    (sendAlways env cid msg).2 = none := by
  unfold sendAlways
  rw [hpost]

theorem sendIf_no_raise (env : BotEnv) (cid : Int) (msg : String)
    (hpost : ∀ c m, env.tgPost c m = TgResult.ok) :
    (sendIf env cid msg).2 = none := by
  unfold sendIf
  by_cases h : env.telegramToken = true
  · rw [if_pos h]
    exact sendAlways_no_raise env cid msg hpost
  · rw [Bool.not_eq_true] at h
    rw [h]
    simp

theorem handleMessage_no_raise (env : BotEnv) (cid : Int) (txt : String)
    (hpost : ∀ c m, env.tgPost c m = TgResult.ok) :
    (handleMessage env cid txt).raised = none := by
  simp only [handleMessage]
  repeat' split
  all_goals
    first
      | rfl
      | exact sendIf_no_raise env cid _ hpost
      | exact sendAlways_no_raise env cid _ hpost

/-- C10 counterexample: two inbound updates carrying a message with
text for which the webhook does not return 200/ok.  First, a message
with `text` but no `chat` key makes the handler raise `KeyError` at
`update['message']['chat']['id']` before any dispatch.  Second, even
with a chat id present, the unguarded `requests.post` reply send can
raise a transport exception that escapes the handler (Flask 500) — the
reply for `/help` is attempted and its connection error propagates. -/
theorem webhook_missing_chat_counterexample :
    ((webhook trivBotEnv (some { message := some { text := some "/help", chat := none } })).1
      = WebhookResponse.crash "KeyError: chat" ∧
     (webhook trivBotEnv (some { message := some { text := some "/help", chat := none } })).1
      ≠ WebhookResponse.reply 200 "ok") ∧
    ((webhook postFailBotEnv
        (some { message := some { text := some "/help", chat := some ⟨7⟩ } })).1
      = WebhookResponse.crash "ConnectionError" ∧
     (webhook postFailBotEnv
        (some { message := some { text := some "/help", chat := some ⟨7⟩ } })).1
      ≠ WebhookResponse.reply 200 "ok") := by
  refine ⟨⟨by decide, by decide⟩, ⟨by decide, by decide⟩⟩

/-- C10 (amended): for every update whose message carries both `text`
and a `chat` id, and whose reply sends raise no transport exception,
the webhook returns 200/`ok` no matter which command ran or how the
handler's providers behaved; when a reply send does raise, the
exception escapes uncaught (Flask surfaces it as a 500), exactly as a
missing `chat` key does; and the 400/`no data` response occurs exactly
for a request body that parses to an empty or absent JSON value, never
for a parsed non-empty update. -/
theorem webhook_status_amended (env : BotEnv) (u : UpdateJson) (m : MessageJson)
    (t : String) (ch : ChatJson)
    (hm : u.message = some m) (ht : m.text = some t) (hc : m.chat = some ch)
    (hpost : ∀ c msg, env.tgPost c msg = TgResult.ok) :
    (webhook env (some u)).1 = WebhookResponse.reply 200 "ok" ∧
    (webhook env none).1 = WebhookResponse.reply 400 "no data" ∧
    (∀ u2 : UpdateJson, (webhook env (some u2)).1 ≠ WebhookResponse.reply 400 "no data") ∧
    ∀ (env2 : BotEnv) (u2 : UpdateJson) (m2 : MessageJson) (t2 : String) (c2 : ChatJson)
      (e : String), u2.message = some m2 → m2.text = some t2 → m2.chat = some c2 →
      (handleMessage env2 c2.id (strToLower t2)).raised = some e →
      (webhook env2 (some u2)).1 = WebhookResponse.crash e := by
  refine ⟨?_, rfl, ?_, ?_⟩
  · have hr := handleMessage_no_raise env ch.id (strToLower t) hpost
    simp [webhook, hm, ht, hc, hr]
  · intro u2 hcon
    rcases hm2 : u2.message with _ | m2
    · simp only [webhook, hm2] at hcon
      exact absurd hcon (by decide)
    · rcases ht2 : m2.text with _ | t2
      · simp only [webhook, hm2, ht2] at hcon
        exact absurd hcon (by decide)
      · rcases hc2 : m2.chat with _ | c2
        · simp only [webhook, hm2, ht2, hc2] at hcon
          exact absurd hcon (by decide)
        · rcases hr2 : (handleMessage env c2.id (strToLower t2)).raised with _ | e
          · simp only [webhook, hm2, ht2, hc2, hr2] at hcon
            exact absurd hcon (by decide)
          · simp only [webhook, hm2, ht2, hc2, hr2] at hcon
            exact WebhookResponse.noConfusion hcon
  · intro env2 u2 m2 t2 c2 e hm2 ht2 hc2 hr2
    simp [webhook, hm2, ht2, hc2, hr2]

/-- C10 witness: a parsed update with text and chat id gets 200/ok
under a never-raising transport with nothing else configured, and the
empty body gets 400/no data. -/
theorem webhook_status_amended_witness :
    (({ message := some { text := some "hello there", chat := some ⟨7⟩ }} :
        UpdateJson).message = some { text := some "hello there", chat := some ⟨7⟩ } ∧
      ({ text := some "hello there", chat := some (⟨7⟩ : ChatJson) } :
        MessageJson).text = some "hello there" ∧
      ({ text := some "hello there", chat := some (⟨7⟩ : ChatJson) } :
        MessageJson).chat = some ⟨7⟩ ∧
      ∀ c msg, trivBotEnv.tgPost c msg = TgResult.ok) ∧
    ((webhook trivBotEnv
        (some { message := some { text := some "hello there", chat := some ⟨7⟩ } })).1
      = WebhookResponse.reply 200 "ok" ∧
     (webhook trivBotEnv none).1 = WebhookResponse.reply 400 "no data" ∧
     (∀ u2 : UpdateJson,
       (webhook trivBotEnv (some u2)).1 ≠ WebhookResponse.reply 400 "no data") ∧
     ∀ (env2 : BotEnv) (u2 : UpdateJson) (m2 : MessageJson) (t2 : String) (c2 : ChatJson)
       (e : String), u2.message = some m2 → m2.text = some t2 → m2.chat = some c2 →
       (handleMessage env2 c2.id (strToLower t2)).raised = some e →
       (webhook env2 (some u2)).1 = WebhookResponse.crash e) :=
  ⟨⟨rfl, rfl, rfl, fun _ _ => rfl⟩,
   webhook_status_amended trivBotEnv _ _ "hello there" ⟨7⟩ rfl rfl rfl (fun _ _ => rfl)⟩

end CryptoBobomb
